import Mathlib

/-!
# Verification of the parametric tower mesh-synthesis core

Shallow embedding of the mesh-synthesis core of the `251108_ParametricTower`
repository (`src/main.ts`): the easing function library, the cubic-Bezier
easing solver (Newton-Raphson with bisection fallback), the per-floor
transform generator, the gradient color evaluator, the slab geometry
builder, and the mesh assembler (`updateTowerGeometry`).

Conventions of the embedding:
* JavaScript numbers are modelled as exact rationals (`ℚ`) for all parameter
  and solver arithmetic, and as reals (`ℝ`) for geometry positions, where the
  code applies trigonometric functions (`Math.cos`/`Math.sin` via
  `Quaternion.setFromAxisAngle` and `degToRad`'s `π/180`).
* The solver's `while (t0 < t1)` bisection loop is modelled as an explicit
  step function `bisectStep` on a loop-state record, so that termination can
  be stated as reachability of an exit state under iteration.
-/

/-- The four easing modes of the library (`EasingMode` in `main.ts`). -/
inductive EasingMode where
  | linear
  | easeIn
  | easeOut
  | easeInOut
deriving DecidableEq

/-- The easing function library (`easingFns` in `main.ts`). -/
def easingFns : EasingMode → ℚ → ℚ
  | .linear => fun t => t
  | .easeIn => fun t => t * t
  | .easeOut => fun t => 1 - (1 - t) * (1 - t)
  | .easeInOut => fun t => if t < 1/2 then 2 * t * t else 1 - (-2 * t + 2) ^ 2 / 2

/-- Linear interpolation (`lerp` in `main.ts`): `start + (end - start) * alpha`,
with no clamping of `alpha`. -/
def lerp (start stop alpha : ℚ) : ℚ := start + (stop - start) * alpha

/-- Clamp as in THREE.MathUtils: clamp(value, min, max) = max(min, min(max, value)). -/
def clampQ (value lo hi : ℚ) : ℚ := max lo (min hi value)

/-- A 2D point (`Vec2` in `main.ts`), used for the Bezier control handles. -/
structure Vec2 where
  x : ℚ
  y : ℚ
deriving DecidableEq

/-! ## Cubic Bezier easing solver (`createCubicBezierEasing` in `main.ts`) -/

/-- Coefficient `cx = 3 * p1.x`. -/
def curveCx (p1 : Vec2) : ℚ := 3 * p1.x

/-- Coefficient `bx = 3 * (p2.x - p1.x) - cx`. -/
def curveBx (p1 p2 : Vec2) : ℚ := 3 * (p2.x - p1.x) - curveCx p1

/-- Coefficient `ax = 1 - cx - bx`. -/
def curveAx (p1 p2 : Vec2) : ℚ := 1 - curveCx p1 - curveBx p1 p2

/-- Coefficient `cy = 3 * p1.y`. -/
def curveCy (p1 : Vec2) : ℚ := 3 * p1.y

/-- Coefficient `by = 3 * (p2.y - p1.y) - cy`. -/
def curveBy (p1 p2 : Vec2) : ℚ := 3 * (p2.y - p1.y) - curveCy p1

/-- Coefficient `ay = 1 - cy - by`. -/
def curveAy (p1 p2 : Vec2) : ℚ := 1 - curveCy p1 - curveBy p1 p2

/-- Horner form sampleCurveX(t) = ((ax * t + bx) * t + cx) * t. -/
def sampleCurveX (p1 p2 : Vec2) (t : ℚ) : ℚ :=
  ((curveAx p1 p2 * t + curveBx p1 p2) * t + curveCx p1) * t

/-- Horner form sampleCurveY(t) = ((ay * t + by) * t + cy) * t. -/
def sampleCurveY (p1 p2 : Vec2) (t : ℚ) : ℚ :=
  ((curveAy p1 p2 * t + curveBy p1 p2) * t + curveCy p1) * t

/-- Horner form sampleDerivativeX(t) = (3 * ax * t + 2 * bx) * t + cx. -/
def sampleDerivativeX (p1 p2 : Vec2) (t : ℚ) : ℚ :=
  (3 * curveAx p1 p2 * t + 2 * curveBx p1 p2) * t + curveCx p1

/-- The solver tolerance (`epsilon = 1e-5` in `solveCurveX`). -/
def solverEpsilon : ℚ := 1 / 100000

/-- The derivative-underflow threshold (`1e-6` in `solveCurveX`). -/
def derivEpsilon : ℚ := 1 / 1000000

/-- The Newton-Raphson phase of `solveCurveX`: the bounded `for` loop,
which runs for at most 8 iterations starting at `t = x`.  `some t` models an
early `return t` on convergence; `none` models falling through to the
bisection phase (derivative underflow `break` or loop exhaustion). -/
def newtonIter (p1 p2 : Vec2) (x : ℚ) : ℕ → ℚ → Option ℚ
  | 0, _ => none
  | fuel + 1, t =>
    if |sampleCurveX p1 p2 t - x| < solverEpsilon then some t
    else if |sampleDerivativeX p1 p2 t| < derivEpsilon then none
    else newtonIter p1 p2 x fuel
      (t - (sampleCurveX p1 p2 t - x) / sampleDerivativeX p1 p2 t)

/-- State of the bisection `while (t0 < t1)` loop in `solveCurveX`:
the bracketing endpoints `t0`, `t1`, the current probe `t`, and
`result = some r` once the loop has exited returning `r`. -/
structure BisectState where
  t0 : ℚ
  t1 : ℚ
  t : ℚ
  result : Option ℚ
deriving DecidableEq

/-- Entry state of the bisection loop: `t0 = 0`, `t1 = 1`, `t = x`. -/
def bisectInit (x : ℚ) : BisectState := ⟨0, 1, x, none⟩

/-- One iteration of the bisection loop of `solveCurveX`:
if `t0 < t1` fails the loop exits returning `t`; otherwise the body samples
the curve at `t`, exits returning `t` on tolerance, and else moves `t0` or
`t1` to `t` and re-centers `t` on the midpoint.  Once `result` is set the
state is absorbing. -/
def bisectStep (p1 p2 : Vec2) (x : ℚ) (s : BisectState) : BisectState :=
  match s.result with
  | some _ => s
  | none =>
    if s.t0 < s.t1 then
      if |sampleCurveX p1 p2 s.t - x| < solverEpsilon then
        { s with result := some s.t }
      else if x > sampleCurveX p1 p2 s.t then
        { t0 := s.t, t1 := s.t1, t := (s.t1 + s.t) / 2, result := none }
      else
        { t0 := s.t0, t1 := s.t, t := (s.t + s.t0) / 2, result := none }
    else { s with result := some s.t }

/-- Iteration bound used to run the bisection loop to its exit.  The loop
provably exits within 24 iterations whenever the handle x-coordinates lie in
[0,1] (see the termination development below), so 64 is never reached on the
program's reachable inputs. -/
def bisectFuel : ℕ := 64

/-- Function solveCurveX of main.ts: Newton-Raphson for at most 8 iterations,
then (on failure) the bisection loop, re-seeded at `t = x` over `[0, 1]`. -/
def solveCurveX (p1 p2 : Vec2) (x : ℚ) : ℚ :=
  match newtonIter p1 p2 x 8 x with
  | some t => t
  | none =>
    let s := (bisectStep p1 p2 x)^[bisectFuel] (bisectInit x)
    s.result.getD s.t

/-- The easing function returned by `createCubicBezierEasing(p1, p2)`:
identical handles short-circuit to the identity; otherwise the input is
clamped to [0,1], inverted through `solveCurveX`, and mapped through
`sampleCurveY`. -/
def cubicBezierEasing (p1 p2 : Vec2) (x : ℚ) : ℚ :=
  if p1 = p2 then x
  else sampleCurveY p1 p2 (solveCurveX p1 p2 (clampQ x 0 1))

/-! ### Basic curve facts -/

theorem sampleCurveX_zero (p1 p2 : Vec2) : sampleCurveX p1 p2 0 = 0 := by
  simp [sampleCurveX]

theorem sampleCurveX_one (p1 p2 : Vec2) : sampleCurveX p1 p2 1 = 1 := by
  simp [sampleCurveX, curveAx, curveBx, curveCx]

theorem sampleCurveY_zero (p1 p2 : Vec2) : sampleCurveY p1 p2 0 = 0 := by
  simp [sampleCurveY]

theorem sampleCurveY_one (p1 p2 : Vec2) : sampleCurveY p1 p2 1 = 1 := by
  simp [sampleCurveY, curveAy, curveBy, curveCy]

theorem clampQ_of_nonpos {x : ℚ} (h : x ≤ 0) : clampQ x 0 1 = 0 := by
  unfold clampQ
  rw [min_eq_right (le_trans h (by norm_num)), max_eq_left h]

theorem clampQ_of_one_le {x : ℚ} (h : 1 ≤ x) : clampQ x 0 1 = 1 := by
  unfold clampQ
  rw [min_eq_left h, max_eq_right (by norm_num)]

theorem solveCurveX_zero (p1 p2 : Vec2) : solveCurveX p1 p2 0 = 0 := by
  unfold solveCurveX
  rw [show (8 : ℕ) = 7 + 1 from rfl]
  rw [newtonIter]
  simp [sampleCurveX_zero, solverEpsilon]

theorem solveCurveX_one (p1 p2 : Vec2) : solveCurveX p1 p2 1 = 1 := by
  unfold solveCurveX
  rw [show (8 : ℕ) = 7 + 1 from rfl]
  rw [newtonIter]
  simp [sampleCurveX_one, solverEpsilon]

/-- C5: For identical control points `P1 = P2`, the easing function
returned by the Bezier solver is exactly the identity: for every input `x`
it returns `x` unchanged.  (By construction of `cubicBezierEasing`, the
degenerate branch returns before any Newton or bisection solving.) -/
theorem bezier_identical_handles_identity (p : Vec2) (x : ℚ) :
    cubicBezierEasing p p x = x := by
  simp [cubicBezierEasing]

/-- C6: For every pair of control points (in particular any with
coordinates in [0,1], such as (0.3,0.1) and (0.7,0.9)), the Bezier-derived
easing function returns 0 at `x = 0` and 1 at `x = 1`: endpoint pinning holds
regardless of handle placement. -/
theorem bezier_endpoint_pinning (p1 p2 : Vec2) :
    cubicBezierEasing p1 p2 0 = 0 ∧ cubicBezierEasing p1 p2 1 = 1 := by
  constructor
  · unfold cubicBezierEasing
    split
    · rfl
    · rw [clampQ_of_nonpos le_rfl, solveCurveX_zero, sampleCurveY_zero]
  · unfold cubicBezierEasing
    split
    · rfl
    · rw [clampQ_of_one_le le_rfl, solveCurveX_one, sampleCurveY_one]

/-- C10: For distinct control points the easing function clamps its
input into [0,1] before solving, so an input outside [0,1] yields the same
value as the nearer endpoint; for identical control points the identity
shortcut returns the input itself, unclamped. -/
theorem bezier_input_clamping (p1 p2 : Vec2) (x : ℚ) :
    (p1 ≠ p2 →
      (x ≤ 0 → cubicBezierEasing p1 p2 x = cubicBezierEasing p1 p2 0) ∧
      (1 ≤ x → cubicBezierEasing p1 p2 x = cubicBezierEasing p1 p2 1)) ∧
    (p1 = p2 → cubicBezierEasing p1 p2 x = x) := by
  constructor
  · intro hne
    constructor
    · intro hx
      simp only [cubicBezierEasing, if_neg hne]
      rw [clampQ_of_nonpos hx, clampQ_of_nonpos le_rfl]
    · intro hx
      simp only [cubicBezierEasing, if_neg hne]
      rw [clampQ_of_one_le hx, clampQ_of_one_le le_rfl]
  · intro he
    subst he
    simp [cubicBezierEasing]

/-- Witness for C10 at the concrete handles (0.3, 0.1) and (0.7, 0.9) and
the out-of-range input `x = 2`. -/
theorem bezier_input_clamping_witness :
    (⟨3/10, 1/10⟩ : Vec2) ≠ ⟨7/10, 9/10⟩ ∧
    cubicBezierEasing ⟨3/10, 1/10⟩ ⟨7/10, 9/10⟩ 2 =
      cubicBezierEasing ⟨3/10, 1/10⟩ ⟨7/10, 9/10⟩ 1 := by
  refine ⟨by norm_num [Vec2.mk.injEq], ?_⟩
  exact ((bezier_input_clamping ⟨3/10, 1/10⟩ ⟨7/10, 9/10⟩ 2).1
    (by norm_num [Vec2.mk.injEq])).2 (by norm_num)

/-! ### Termination of the bisection fallback (C2)

The bisection loop of `solveCurveX` terminates because `sampleCurveX` is
27-Lipschitz on `[0,1]` when both handle x-coordinates lie in `[0,1]`, the
loop keeps the bracket `sampleCurveX t0 ≤ x ≤ sampleCurveX t1` invariant, and
the bracket halves on every iteration after the first, so the probe value
eventually lands within the `1e-5` tolerance. -/

/-- Directional 27-Lipschitz bound for `sampleCurveX` on `[0,1]`, for
handle x-coordinates in `[0,1]`. -/
theorem sampleCurveX_sub_le (p1 p2 : Vec2)
    (h1 : 0 ≤ p1.x) (h2 : p1.x ≤ 1) (h3 : 0 ≤ p2.x) (h4 : p2.x ≤ 1)
    {u v : ℚ} (hu : 0 ≤ u) (huv : u ≤ v) (hv : v ≤ 1) :
    sampleCurveX p1 p2 v - sampleCurveX p1 p2 u ≤ 27 * (v - u) ∧
    sampleCurveX p1 p2 u - sampleCurveX p1 p2 v ≤ 27 * (v - u) := by
  have key : sampleCurveX p1 p2 v - sampleCurveX p1 p2 u
      = (v - u) * ((1 + 3 * p1.x - 3 * p2.x) * (v ^ 2 + v * u + u ^ 2)
          + (3 * p2.x - 6 * p1.x) * (v + u) + 3 * p1.x) := by
    unfold sampleCurveX curveAx curveBx curveCx
    ring
  have hv0 : 0 ≤ v := le_trans hu huv
  have hu1 : u ≤ 1 := le_trans huv hv
  have hq0 : 0 ≤ v ^ 2 + v * u + u ^ 2 := by positivity
  have hq3 : v ^ 2 + v * u + u ^ 2 ≤ 3 := by nlinarith
  have hr0 : 0 ≤ v + u := by linarith
  have hr2 : v + u ≤ 2 := by linarith
  have hAl : (-2 : ℚ) ≤ 1 + 3 * p1.x - 3 * p2.x := by linarith
  have hAu : 1 + 3 * p1.x - 3 * p2.x ≤ 4 := by linarith
  have hBl : (-6 : ℚ) ≤ 3 * p2.x - 6 * p1.x := by linarith
  have hBu : 3 * p2.x - 6 * p1.x ≤ 3 := by linarith
  have hQu : (1 + 3 * p1.x - 3 * p2.x) * (v ^ 2 + v * u + u ^ 2)
      + (3 * p2.x - 6 * p1.x) * (v + u) + 3 * p1.x ≤ 27 := by nlinarith
  have hQl : (-27 : ℚ) ≤ (1 + 3 * p1.x - 3 * p2.x) * (v ^ 2 + v * u + u ^ 2)
      + (3 * p2.x - 6 * p1.x) * (v + u) + 3 * p1.x := by nlinarith
  have hvu : 0 ≤ v - u := by linarith
  constructor
  · rw [key]
    nlinarith [mul_nonneg hvu (show (0 : ℚ) ≤ 27 - ((1 + 3 * p1.x - 3 * p2.x)
      * (v ^ 2 + v * u + u ^ 2) + (3 * p2.x - 6 * p1.x) * (v + u) + 3 * p1.x)
      from by linarith)]
  · nlinarith [key, mul_nonneg hvu (show (0 : ℚ) ≤ ((1 + 3 * p1.x - 3 * p2.x)
      * (v ^ 2 + v * u + u ^ 2) + (3 * p2.x - 6 * p1.x) * (v + u) + 3 * p1.x)
      + 27 from by linarith)]

/-- The bracketing invariant maintained by the bisection loop:
`0 ≤ t0 ≤ t ≤ t1 ≤ 1` and `sampleCurveX t0 ≤ x ≤ sampleCurveX t1`. -/
def BisectInv (p1 p2 : Vec2) (x : ℚ) (s : BisectState) : Prop :=
  0 ≤ s.t0 ∧ s.t0 ≤ s.t ∧ s.t ≤ s.t1 ∧ s.t1 ≤ 1 ∧
  sampleCurveX p1 p2 s.t0 ≤ x ∧ x ≤ sampleCurveX p1 p2 s.t1

theorem bisectInv_init (p1 p2 : Vec2) {x : ℚ} (hx0 : 0 ≤ x) (hx1 : x ≤ 1) :
    BisectInv p1 p2 x (bisectInit x) := by
  refine ⟨le_rfl, hx0, hx1, le_rfl, ?_, ?_⟩
  · show sampleCurveX p1 p2 0 ≤ x
    rw [sampleCurveX_zero]
    exact hx0
  · show x ≤ sampleCurveX p1 p2 1
    rw [sampleCurveX_one]
    exact hx1

/-- One bisection iteration from a live state either exits the loop, or
preserves the invariant, re-centers the probe on the midpoint, and does not
grow the bracket — halving it exactly when the probe was the midpoint. -/
theorem bisectStep_cases (p1 p2 : Vec2) (x : ℚ) (s : BisectState)
    (hres : s.result = none) (hinv : BisectInv p1 p2 x s) :
    (bisectStep p1 p2 x s).result.isSome = true ∨
    ((bisectStep p1 p2 x s).result = none ∧
     BisectInv p1 p2 x (bisectStep p1 p2 x s) ∧
     (bisectStep p1 p2 x s).t
       = ((bisectStep p1 p2 x s).t0 + (bisectStep p1 p2 x s).t1) / 2 ∧
     (bisectStep p1 p2 x s).t1 - (bisectStep p1 p2 x s).t0 ≤ s.t1 - s.t0 ∧
     (s.t = (s.t0 + s.t1) / 2 →
       (bisectStep p1 p2 x s).t1 - (bisectStep p1 p2 x s).t0
         = (s.t1 - s.t0) / 2)) := by
  obtain ⟨g0, g1, g2, g3, g4, g5⟩ := hinv
  unfold bisectStep
  rw [hres]
  dsimp only
  split_ifs with hlt heps hgt
  · left
    rfl
  · right
    refine ⟨rfl, ⟨?_, ?_, ?_, ?_, ?_, ?_⟩, ?_, ?_, ?_⟩
    · exact le_trans g0 g1
    · show s.t ≤ (s.t1 + s.t) / 2
      linarith
    · show (s.t1 + s.t) / 2 ≤ s.t1
      linarith
    · exact g3
    · exact le_of_lt hgt
    · exact g5
    · show (s.t1 + s.t) / 2 = (s.t + s.t1) / 2
      ring
    · show s.t1 - s.t ≤ s.t1 - s.t0
      linarith
    · intro hmid
      show s.t1 - s.t = (s.t1 - s.t0) / 2
      rw [hmid]
      ring
  · right
    have hxle : x ≤ sampleCurveX p1 p2 s.t := not_lt.mp hgt
    refine ⟨rfl, ⟨?_, ?_, ?_, ?_, ?_, ?_⟩, ?_, ?_, ?_⟩
    · exact g0
    · show s.t0 ≤ (s.t + s.t0) / 2
      linarith
    · show (s.t + s.t0) / 2 ≤ s.t
      linarith
    · exact le_trans g2 g3
    · exact g4
    · exact hxle
    · show (s.t + s.t0) / 2 = (s.t0 + s.t) / 2
      ring
    · show s.t - s.t0 ≤ s.t1 - s.t0
      linarith
    · intro hmid
      show s.t - s.t0 = (s.t1 - s.t0) / 2
      rw [hmid]
      ring
  · left
    rfl

/-- Once the bracket is narrower than `epsilon / 27`, the next iteration
exits: the probe's curve value is within tolerance of `x`. -/
theorem bisectStep_done (p1 p2 : Vec2) (x : ℚ)
    (h1 : 0 ≤ p1.x) (h2 : p1.x ≤ 1) (h3 : 0 ≤ p2.x) (h4 : p2.x ≤ 1)
    (s : BisectState) (hres : s.result = none) (hinv : BisectInv p1 p2 x s)
    (hsmall : s.t1 - s.t0 < solverEpsilon / 27) :
    (bisectStep p1 p2 x s).result.isSome = true := by
  obtain ⟨g0, g1, g2, g3, g4, g5⟩ := hinv
  have heps : |sampleCurveX p1 p2 s.t - x| < solverEpsilon := by
    have hup := (sampleCurveX_sub_le p1 p2 h1 h2 h3 h4 g0 g1 (le_trans g2 g3)).1
    have hdown := (sampleCurveX_sub_le p1 p2 h1 h2 h3 h4
      (le_trans g0 g1) g2 g3).1
    rw [abs_sub_lt_iff]
    constructor
    · nlinarith
    · nlinarith
  unfold bisectStep
  rw [hres]
  dsimp only
  split_ifs with hlt
  · rfl
  · rfl

/-- Fuel-indexed convergence: from any live midpoint-probing state whose
bracket is below `epsilon / 27 · 2 ^ m`, the loop exits within `m + 1`
further iterations. -/
theorem bisect_progress (p1 p2 : Vec2) (x : ℚ)
    (h1 : 0 ≤ p1.x) (h2 : p1.x ≤ 1) (h3 : 0 ≤ p2.x) (h4 : p2.x ≤ 1) :
    ∀ (m : ℕ) (s : BisectState), s.result = none → BisectInv p1 p2 x s →
      s.t = (s.t0 + s.t1) / 2 →
      s.t1 - s.t0 < solverEpsilon / 27 * 2 ^ m →
      ∃ n, (((bisectStep p1 p2 x)^[n]) s).result.isSome = true := by
  intro m
  induction m with
  | zero =>
    intro s hres hinv _ hlen
    refine ⟨1, ?_⟩
    simpa using bisectStep_done p1 p2 x h1 h2 h3 h4 s hres hinv
      (by simpa using hlen)
  | succ k ih =>
    intro s hres hinv hmid hlen
    by_cases hsmall : s.t1 - s.t0 < solverEpsilon / 27
    · refine ⟨1, ?_⟩
      simpa using bisectStep_done p1 p2 x h1 h2 h3 h4 s hres hinv hsmall
    · rcases bisectStep_cases p1 p2 x s hres hinv with
        hdone | ⟨hres', hinv', hmid', _, hhalf⟩
      · exact ⟨1, by simpa using hdone⟩
      · have hlen' : (bisectStep p1 p2 x s).t1 - (bisectStep p1 p2 x s).t0
            < solverEpsilon / 27 * 2 ^ k := by
          rw [hhalf hmid]
          have hp : (2 : ℚ) ^ (k + 1) = 2 ^ k * 2 := pow_succ 2 k
          rw [hp] at hlen
          linarith
        obtain ⟨n, hn⟩ := ih (bisectStep p1 p2 x s) hres' hinv' hmid' hlen'
        exact ⟨n + 1, by rwa [Function.iterate_succ_apply]⟩

/-- C2: For every pair of control points with x-coordinates in `[0,1]`
(including non-monotonic configurations with `P1.x > P2.x`) and every
requested input `x`, the bisection fallback of `solveCurveX` — run on the
clamped input, exactly as the returned easing function invokes it —
terminates: some finite number of iterations of the loop body reaches an
exit state.  The Newton-Raphson phase is bounded by construction
(`newtonIter` with fuel 8 and tolerance `1e-5`, derivative threshold
`1e-6`), so the solver as a whole terminates and yields a result. -/
theorem bezier_solver_terminates (p1 p2 : Vec2)
    (h1 : 0 ≤ p1.x) (h2 : p1.x ≤ 1) (h3 : 0 ≤ p2.x) (h4 : p2.x ≤ 1) (x : ℚ) :
    ∃ n, (((bisectStep p1 p2 (clampQ x 0 1))^[n])
      (bisectInit (clampQ x 0 1))).result.isSome = true := by
  have hx0 : 0 ≤ clampQ x 0 1 := le_max_left 0 _
  have hx1 : clampQ x 0 1 ≤ 1 := max_le (by norm_num) (min_le_left _ _)
  have hinv0 := bisectInv_init p1 p2 hx0 hx1
  rcases bisectStep_cases p1 p2 (clampQ x 0 1) (bisectInit (clampQ x 0 1))
      rfl hinv0 with hdone | ⟨hres1, hinv1, hmid1, hshrink, _⟩
  · exact ⟨1, by simpa using hdone⟩
  · have hlen1 : (bisectStep p1 p2 (clampQ x 0 1) (bisectInit (clampQ x 0 1))).t1
        - (bisectStep p1 p2 (clampQ x 0 1) (bisectInit (clampQ x 0 1))).t0
        < solverEpsilon / 27 * 2 ^ 22 := by
      have hone : (bisectInit (clampQ x 0 1)).t1 - (bisectInit (clampQ x 0 1)).t0
          = 1 := by
        simp [bisectInit]
      have hle1 := hone ▸ hshrink
      exact lt_of_le_of_lt hle1 (by norm_num [solverEpsilon])
    obtain ⟨n, hn⟩ := bisect_progress p1 p2 (clampQ x 0 1) h1 h2 h3 h4 22
      (bisectStep p1 p2 (clampQ x 0 1) (bisectInit (clampQ x 0 1)))
      hres1 hinv1 hmid1 hlen1
    exact ⟨n + 1, by rwa [Function.iterate_succ_apply]⟩

/-- Witness for C2 at a concrete non-monotonic handle configuration
(`P1.x = 0.9 > 0.1 = P2.x`) and input `x = 1/2`. -/
theorem bezier_solver_terminates_witness :
    (0 : ℚ) ≤ (9 : ℚ)/10 ∧ (9 : ℚ)/10 ≤ 1 ∧ (0 : ℚ) ≤ (1 : ℚ)/10
      ∧ (1 : ℚ)/10 ≤ 1 ∧
    ∃ n, (((bisectStep ⟨9/10, 1/10⟩ ⟨1/10, 9/10⟩ (clampQ (1/2) 0 1))^[n])
      (bisectInit (clampQ (1/2) 0 1))).result.isSome = true := by
  refine ⟨by norm_num, by norm_num, by norm_num, by norm_num, ?_⟩
  exact bezier_solver_terminates ⟨9/10, 1/10⟩ ⟨1/10, 9/10⟩
    (by norm_num) (by norm_num) (by norm_num) (by norm_num) (1/2)

/-! ## Tower parameters and the floor transform generator -/

/-- An RGB color with channels in `[0,1]` (a parsed `THREE.Color`). -/
structure Color where
  r : ℚ
  g : ℚ
  b : ℚ
deriving DecidableEq

/-- Blend as in THREE.Color.lerp(color, alpha): per-channel this += (color - this) * alpha. -/
def colorLerp (c1 c2 : Color) (alpha : ℚ) : Color :=
  ⟨lerp c1.r c2.r alpha, lerp c1.g c2.g alpha, lerp c1.b c2.b alpha⟩

/-- The highlight color `new THREE.Color('#ffffff')`. -/
def whiteColor : Color := ⟨1, 1, 1⟩

/-- The per-floor gradient color of `updateTowerGeometry`:
`bottomColor.clone().lerp(topColor, t).lerp(highlightColor, 0.15)`. -/
def gradientColor (colorBottom colorTop : Color) (t : ℚ) : Color :=
  colorLerp (colorLerp colorBottom colorTop t) whiteColor (15/100)

/-- The parameter snapshot (`TowerParams` in `main.ts`).  `floors` is a
natural number (the GUI constrains it to an integer slider); `segments` is
kept rational because `buildBaseSlabGeometry` rounds it.  The two color
fields are the parsed endpoint colors. -/
structure TowerParams where
  floors : ℕ
  floorHeight : ℚ
  slabThickness : ℚ
  baseRadius : ℚ
  segments : ℚ
  twistMin : ℚ
  twistMax : ℚ
  twistEase : EasingMode
  scaleMin : ℚ
  scaleMax : ℚ
  scaleEase : EasingMode
  colorBottom : Color
  colorTop : Color
  autoSpin : Bool
  spinSpeed : ℚ

/-- The full input snapshot of a rebuild: the parameter struct plus the
scale-graph state (`scaleGraphState.enabled` and the two control points,
from which `scaleBezierEase` is always rebuilt). -/
structure Snapshot where
  params : TowerParams
  graphEnabled : Bool
  graphP1 : Vec2
  graphP2 : Vec2

/-- The active scale easing of a rebuild:
`scaleGraphState.enabled ? scaleBezierEase : easingFns[params.scaleEase]`. -/
def activeScaleEase (snap : Snapshot) : ℚ → ℚ :=
  if snap.graphEnabled then cubicBezierEasing snap.graphP1 snap.graphP2
  else easingFns snap.params.scaleEase

/-- The normalized floor height of floor `i`:
`params.floors === 1 ? 0 : i / (params.floors - 1)`. -/
def floorT (floors i : ℕ) : ℚ :=
  if floors = 1 then 0 else (i : ℚ) / ((floors : ℚ) - 1)

/-- Conversion THREE.MathUtils.degToRad(d) = d * (π / 180). -/
noncomputable def degToRad (d : ℚ) : ℝ := (d : ℝ) * (Real.pi / 180)

/-- The per-floor transform composed by `updateTowerGeometry` via
`Matrix4.compose(position, quaternion, scale)`: a translation along the
vertical axis, a rotation about the vertical (+Y) axis by `twist` radians
(`Quaternion.setFromAxisAngle(axisY, twist)`), and a non-uniform scale. -/
structure FloorTransform where
  pos : ℚ × ℚ × ℚ
  twist : ℝ
  scale : ℚ × ℚ × ℚ

/-- The floor-transform computation of the rebuild loop body
(`main.ts`, `updateTowerGeometry`, lines 759-775). -/
noncomputable def floorTransform (snap : Snapshot) (i : ℕ) : FloorTransform :=
  let p := snap.params
  let t := floorT p.floors i
  let twistT := easingFns p.twistEase t
  let scaleT := activeScaleEase snap t
  let scaleFactor := lerp p.scaleMin p.scaleMax scaleT
  { pos := (0, (i : ℚ) * p.floorHeight, 0)
  , twist := degToRad (lerp p.twistMin p.twistMax twistT)
  , scale := (p.baseRadius * scaleFactor, p.slabThickness, p.baseRadius * scaleFactor) }

/-- C1: For every floor index `i` in `[0, floorCount)` and every
parameter snapshot, the rebuild computes the floor's normalized height `t`
as `i / (floorCount - 1)` (with `t = 0` when `floorCount = 1`), and produces
position `(0, i * floorHeight, 0)`, a rotation about the vertical axis of
`degreesToRadians(lerp(twistMin, twistMax, twistEasing(t)))` radians, and
non-uniform scale `(baseRadius * scaleFactor, slabThickness,
baseRadius * scaleFactor)` with
`scaleFactor = lerp(scaleMin, scaleMax, scaleEasing(t))`, where
`lerp(a, b, alpha) = a + (b - a) * alpha` with no clamping of `alpha`.
(Stated for every `i`, which subsumes the in-range indices the loop visits;
`scaleEasing` is the active scale easing — the Bezier-derived function when
the scale graph is enabled, the library function otherwise.) -/
theorem floor_transform_formulas (snap : Snapshot) (i : ℕ) :
    floorT snap.params.floors i
      = (if snap.params.floors = 1 then 0
         else (i : ℚ) / ((snap.params.floors : ℚ) - 1)) ∧
    (floorTransform snap i).pos = (0, (i : ℚ) * snap.params.floorHeight, 0) ∧
    (floorTransform snap i).twist
      = degToRad (lerp snap.params.twistMin snap.params.twistMax
          (easingFns snap.params.twistEase (floorT snap.params.floors i))) ∧
    (floorTransform snap i).scale
      = (snap.params.baseRadius * lerp snap.params.scaleMin snap.params.scaleMax
           (activeScaleEase snap (floorT snap.params.floors i)),
         snap.params.slabThickness,
         snap.params.baseRadius * lerp snap.params.scaleMin snap.params.scaleMax
           (activeScaleEase snap (floorT snap.params.floors i))) ∧
    (∀ a b alpha : ℚ, lerp a b alpha = a + (b - a) * alpha) :=
  ⟨rfl, rfl, rfl, rfl, fun _ _ _ => rfl⟩

/-! ## Slab geometry builder and mesh assembler

Geometry buffers are modelled as lists: positions over `ℝ` (the slab
template and the rotation involve `sin`/`cos`/`π`), colors over `ℚ`, and a
flat triangle index list.

Normal attributes are modelled only at the merged-mesh level: the assembler
always recomputes them after merge (`computeVertexNormals`, spec 4.6 step 4),
so the pre-merge normal transport performed by `applyMatrix4` is never
observable and is not carried through the embedding. -/

/-- A geometry buffer set (`THREE.BufferGeometry` as used by the core):
one position triple per vertex, one color per vertex, a flag recording
whether the `color` attribute is present at all (the slab template carries
none until the assembler's `setAttribute('color', …)` adds it — attribute
*presence*, not buffer length, is what the merge utility compares), and a
flat triangle index. -/
structure Geometry where
  positions : List (ℝ × ℝ × ℝ)
  colors : List Color
  hasColors : Bool
  index : List ℕ

/-- Fresh geometry, as in new THREE.BufferGeometry() (no attributes). -/
def emptyGeometry : Geometry := ⟨[], [], false, []⟩

/-- The segment count used by `buildBaseSlabGeometry`:
`Math.max(3, Math.round(params.segments))`.  `Math.round` rounds half
toward positive infinity, which is `⌊q + 1/2⌋`, i.e. Lean's `round`. -/
def segmentCount (segments : ℚ) : ℕ := (max 3 (round segments)).toNat

/-- A point of the template's unit circle at angular step `x` of `seg`
(`theta = x / seg * 2π`; `(sin θ, cos θ)` as in `CylinderGeometry`). -/
noncomputable def unitCirclePoint (seg x : ℕ) : ℝ × ℝ :=
  (Real.sin ((x : ℝ) / (seg : ℝ) * (2 * Real.pi)),
   Real.cos ((x : ℝ) / (seg : ℝ) * (2 * Real.pi)))

/-- One ring row of the cylinder torso at height `py`
(modelled from `THREE.CylinderGeometry.generateTorso` with
radiusTop = radiusBottom = 1, height = 1, heightSegments = 1:
`seg + 1` vertices per row, the seam vertex duplicated). -/
noncomputable def cylinderTorsoRow (seg : ℕ) (py : ℝ) : List (ℝ × ℝ × ℝ) :=
  (List.range (seg + 1)).map
    (fun x => ((unitCirclePoint seg x).1, py, (unitCirclePoint seg x).2))

/-- One end cap at height `py` (modelled from
`THREE.CylinderGeometry.generateCap`): `seg` duplicated center vertices
followed by a ring of `seg + 1` vertices. -/
noncomputable def cylinderCap (seg : ℕ) (py : ℝ) : List (ℝ × ℝ × ℝ) :=
  List.replicate seg ((0 : ℝ), py, (0 : ℝ)) ++
    (List.range (seg + 1)).map
      (fun x => ((unitCirclePoint seg x).1, py, (unitCirclePoint seg x).2))

/-- Vertex positions of `new THREE.CylinderGeometry(1, 1, 1, seg, 1, false)`:
two torso rows (top at `y = 1/2`, bottom at `y = -1/2`), then the top and
bottom caps.  Total count: `2·(seg+1) + 2·(2·seg+1) = 6·seg + 4`. -/
noncomputable def cylinderPositions (seg : ℕ) : List (ℝ × ℝ × ℝ) :=
  cylinderTorsoRow seg (1/2) ++ cylinderTorsoRow seg (-(1/2)) ++
    cylinderCap seg (1/2) ++ cylinderCap seg (-(1/2))

/-- Triangle indices of the cylinder template (modelled from
`THREE.CylinderGeometry`): two triangles per torso quad, one triangle per
cap segment around the duplicated centers. -/
def cylinderIndex (seg : ℕ) : List ℕ :=
  ((List.range seg).map
      (fun x => [x, x + seg + 1, x + 1, x + seg + 1, x + seg + 2, x + 1])).flatten
  ++ ((List.range seg).map
      (fun x => [2 * (seg + 1) + seg + x, 2 * (seg + 1) + seg + x + 1,
                 2 * (seg + 1) + x])).flatten
  ++ ((List.range seg).map
      (fun x => [2 * (seg + 1) + (2 * seg + 1) + seg + x + 1,
                 2 * (seg + 1) + (2 * seg + 1) + seg + x,
                 2 * (seg + 1) + (2 * seg + 1) + x])).flatten

/-- The slab template geometry
(`new THREE.CylinderGeometry(1, 1, 1, segmentCount, 1, false)`);
`CylinderGeometry` carries no color attribute. -/
noncomputable def cylinderGeometry (seg : ℕ) : Geometry :=
  ⟨cylinderPositions seg, [], false, cylinderIndex seg⟩

/-- Function buildBaseSlabGeometry of main.ts: clamp/round the segment slider and
build the unit cylinder template. -/
noncomputable def buildBaseSlabGeometry (segments : ℚ) : Geometry :=
  cylinderGeometry (segmentCount segments)

/-- Application of the composed floor matrix to one vertex
(`applyMatrix4` on positions, with `M = T · R · S`): scale first, then the
rotation about +Y by the twist angle, then the translation. -/
noncomputable def transformPoint (tf : FloorTransform) (v : ℝ × ℝ × ℝ) : ℝ × ℝ × ℝ :=
  let c := Real.cos tf.twist
  let s := Real.sin tf.twist
  (c * ((tf.scale.1 : ℝ) * v.1) + s * ((tf.scale.2.2 : ℝ) * v.2.2) + (tf.pos.1 : ℝ),
   (tf.scale.2.1 : ℝ) * v.2.1 + (tf.pos.2.1 : ℝ),
   -s * ((tf.scale.1 : ℝ) * v.1) + c * ((tf.scale.2.2 : ℝ) * v.2.2) + (tf.pos.2.2 : ℝ))

/-- Effect of slab.applyMatrix4(reusableMatrix) on a cloned template. -/
noncomputable def applyTransform (tf : FloorTransform) (g : Geometry) : Geometry :=
  { g with positions := g.positions.map (transformPoint tf) }

/-- One iteration of the per-floor loop of `updateTowerGeometry`: clone the
template, apply the composed transform, and assign the per-floor flat
gradient color to every vertex
(`colors[3v .. 3v+2] = gradientColor` for each vertex `v`). -/
noncomputable def buildFloorSlab (snap : Snapshot) (slab : Geometry) (i : ℕ) : Geometry :=
  let g := applyTransform (floorTransform snap i) slab
  { g with
    colors := List.replicate g.positions.length
      (gradientColor snap.params.colorBottom snap.params.colorTop
        (floorT snap.params.floors i))
    hasColors := true }

/-- The `geometries` array accumulated by the rebuild loop
(`for (let i = 0; i < params.floors; i += 1)`). -/
noncomputable def floorSlabs (snap : Snapshot) (slab : Geometry) : List Geometry :=
  (List.range snap.params.floors).map (buildFloorSlab snap slab)

/-- Index concatenation with per-geometry vertex offsets, as performed by
`mergeGeometries` (each geometry's indices are shifted by the number of
vertices that precede it). -/
def mergeIndices : ℕ → List Geometry → List ℕ
  | _, [] => []
  | off, g :: rest =>
    g.index.map (· + off) ++ mergeIndices (off + g.positions.length) rest

/-- Outcome of a call to the library's merge utility.  The function is not
total-with-null: on an **empty** array it evaluates `geometries[0].index` on
`undefined` and **throws a TypeError** (`threw`); it **returns null**
(`nullResult`) when the geometries disagree on their attribute layout (the
`console.error … return null` paths); otherwise it returns the merged
geometry. -/
inductive MergeResult where
  | threw
  | nullResult
  | merged (g : Geometry)

/-- Merge as in mergeGeometries(geometries, true) (three.js
BufferGeometryUtils), modelled from the library: an empty input list throws
(`geometries[0].index` on an empty array); geometries whose attribute
layouts disagree with the first one's yield the null result (restricted
here to presence of the `color` attribute, the only attribute that varies
in this program — index-layout and morph-attribute mismatches cannot arise
from clones of one indexed template); otherwise attribute-wise
concatenation with index offsetting. -/
noncomputable def mergeGeometries (l : List Geometry) : MergeResult :=
  match l with
  | [] => .threw
  | g :: rest =>
    if rest.all (fun h => h.hasColors == g.hasColors) then
      .merged ⟨((g :: rest).map Geometry.positions).flatten,
               ((g :: rest).map Geometry.colors).flatten,
               g.hasColors, mergeIndices 0 (g :: rest)⟩
    else .nullResult

/-! ### `computeVertexNormals` (modelled from `THREE.BufferGeometry`) -/

noncomputable def vsub (a b : ℝ × ℝ × ℝ) : ℝ × ℝ × ℝ :=
  (a.1 - b.1, a.2.1 - b.2.1, a.2.2 - b.2.2)

noncomputable def vadd (a b : ℝ × ℝ × ℝ) : ℝ × ℝ × ℝ :=
  (a.1 + b.1, a.2.1 + b.2.1, a.2.2 + b.2.2)

noncomputable def vcross (a b : ℝ × ℝ × ℝ) : ℝ × ℝ × ℝ :=
  (a.2.1 * b.2.2 - a.2.2 * b.2.1,
   a.2.2 * b.1 - a.1 * b.2.2,
   a.1 * b.2.1 - a.2.1 * b.1)

/-- Normalization as in Vector3.normalize: divide by the length, or leave a zero vector
unchanged (`divideScalar(length || 1)`). -/
noncomputable def vnormalize (v : ℝ × ℝ × ℝ) : ℝ × ℝ × ℝ :=
  let l := Real.sqrt (v.1 ^ 2 + v.2.1 ^ 2 + v.2.2 ^ 2)
  if l = 0 then v else (v.1 / l, v.2.1 / l, v.2.2 / l)

/-- Face-normal accumulation pass of `computeVertexNormals` over the
triangle index: for each triangle `(a, b, c)` add
`(pC - pB) × (pA - pB)` to the three vertex slots. -/
noncomputable def accumulateNormals (pos : List (ℝ × ℝ × ℝ)) :
    List ℕ → List (ℝ × ℝ × ℝ) → List (ℝ × ℝ × ℝ)
  | a :: b :: c :: rest, acc =>
    let pA := pos.getD a (0, 0, 0)
    let pB := pos.getD b (0, 0, 0)
    let pC := pos.getD c (0, 0, 0)
    let n := vcross (vsub pC pB) (vsub pA pB)
    let acc1 := acc.set a (vadd (acc.getD a (0, 0, 0)) n)
    let acc2 := acc1.set b (vadd (acc1.getD b (0, 0, 0)) n)
    let acc3 := acc2.set c (vadd (acc2.getD c (0, 0, 0)) n)
    accumulateNormals pos rest acc3
  | _, acc => acc

/-- Model of BufferGeometry.computeVertexNormals on an indexed geometry:
accumulate face normals per vertex, then normalize each. -/
noncomputable def computeVertexNormals (g : Geometry) : List (ℝ × ℝ × ℝ) :=
  (accumulateNormals g.positions g.index
    (List.replicate g.positions.length (0, 0, 0))).map vnormalize

/-! ### The rebuild (`updateTowerGeometry`) -/

/-- The mutable module state the rebuild touches: the cached slab template
(`baseSlabGeometry`), the tower mesh's current geometry (`towerMesh`,
`none` until `ensureTowerMesh` creates it), and the mesh's normal buffer. -/
structure MeshState where
  baseSlab : Option Geometry
  mesh : Option Geometry
  meshNormals : List (ℝ × ℝ × ℝ)

/-- Function ensureTowerMesh: create the mesh with an empty geometry if absent. -/
def ensureTowerMesh (s : MeshState) : MeshState :=
  match s.mesh with
  | none => { s with mesh := some emptyGeometry }
  | some _ => s

/-- The slab template a rebuild uses: the cached one if present, else the
one `buildBaseSlabGeometry()` constructs from the current segments value. -/
noncomputable def towerSlabTemplate (snap : Snapshot) (s : MeshState) : Geometry :=
  match s.baseSlab with
  | some g => g
  | none => buildBaseSlabGeometry snap.params.segments

/-- How one call to `updateTowerGeometry` ends: a normal return (`ok`) or
an uncaught exception propagating out of the merge call (`threw`).  Either
way the carried `MeshState` is the module state when control leaves the
function — for `threw`, the mutations performed before the throw
(`ensureTowerMesh`, template construction). -/
inductive RebuildOutcome where
  | ok (s : MeshState)
  | threw (s : MeshState)

/-- The module state when control leaves the rebuild, however it ended. -/
def RebuildOutcome.state : RebuildOutcome → MeshState
  | .ok s => s
  | .threw s => s

/-- Function updateTowerGeometry of main.ts: ensure the mesh and template
exist, build the per-floor slab instances, merge them, and — only if the
merge returns a geometry — replace the mesh geometry and recompute vertex
normals.  A null merge result takes the `if (!merged) return` early return,
leaving the current mesh geometry in place; a merge that throws (empty
floor list) aborts the rebuild exceptionally, also leaving the current mesh
geometry in place but not returning normally. -/
noncomputable def updateTowerGeometry (snap : Snapshot) (s : MeshState) : RebuildOutcome :=
  match mergeGeometries (floorSlabs snap (towerSlabTemplate snap s)) with
  | .threw =>
    .threw { ensureTowerMesh s with baseSlab := some (towerSlabTemplate snap s) }
  | .nullResult =>
    .ok { ensureTowerMesh s with baseSlab := some (towerSlabTemplate snap s) }
  | .merged merged =>
    .ok { ensureTowerMesh s with
          baseSlab := some (towerSlabTemplate snap s)
          mesh := some merged
          meshNormals := computeVertexNormals merged }

/-! ### Helper lemmas about the assembler -/

theorem buildFloorSlab_positions_length (snap : Snapshot) (slab : Geometry) (i : ℕ) :
    (buildFloorSlab snap slab i).positions.length = slab.positions.length := by
  simp [buildFloorSlab, applyTransform]

theorem buildFloorSlab_colors_length (snap : Snapshot) (slab : Geometry) (i : ℕ) :
    (buildFloorSlab snap slab i).colors.length = slab.positions.length := by
  simp [buildFloorSlab, applyTransform]

theorem buildFloorSlab_hasColors (snap : Snapshot) (slab : Geometry) (i : ℕ) :
    (buildFloorSlab snap slab i).hasColors = true := by
  simp [buildFloorSlab, applyTransform]

/-- A nonempty list of geometries that all carry the color attribute merges
successfully (the attribute layouts agree). -/
theorem mergeGeometries_eq_merged {l : List Geometry} (h : l ≠ [])
    (huniform : ∀ g ∈ l, g.hasColors = true) :
    mergeGeometries l
      = .merged ⟨(l.map Geometry.positions).flatten,
                 (l.map Geometry.colors).flatten, true, mergeIndices 0 l⟩ := by
  cases l with
  | nil => exact absurd rfl h
  | cons a r =>
    have ha : a.hasColors = true := huniform a (by simp)
    have hall : r.all (fun h => h.hasColors == a.hasColors) = true := by
      rw [List.all_eq_true]
      intro g hg
      rw [huniform g (by simp [hg]), ha]
      rfl
    simp only [mergeGeometries]
    rw [if_pos hall, ha]

theorem sum_map_range_const (n c : ℕ) :
    ((List.range n).map (fun _ => c)).sum = n * c := by
  induction n with
  | zero => simp
  | succ k ih =>
    rw [List.range_succ, List.map_append, List.sum_append]
    simp [ih]
    ring

theorem towerSlabTemplate_of_synced {snap : Snapshot} {s : MeshState}
    (h : s.baseSlab = none ∨
      s.baseSlab = some (buildBaseSlabGeometry snap.params.segments)) :
    towerSlabTemplate snap s = buildBaseSlabGeometry snap.params.segments := by
  rcases h with h | h <;> simp [towerSlabTemplate, h]

/-- Every slab instance the floor loop emits carries the color attribute,
so the merge's attribute-layout check always passes on them. -/
theorem floorSlabs_uniform (snap : Snapshot) (slab : Geometry) :
    ∀ g ∈ floorSlabs snap slab, g.hasColors = true := by
  intro g hg
  unfold floorSlabs at hg
  rw [List.mem_map] at hg
  obtain ⟨i, _, hgi⟩ := hg
  rw [← hgi]
  exact buildFloorSlab_hasColors snap slab i

/-- Core counting lemma for a successful rebuild: with at least one floor
and a template in sync with the segments parameter, the rebuild returns
normally and installs a merged geometry whose vertex count is `floors ·`
(template vertex count) and whose color buffer covers every vertex. -/
theorem update_mesh_count (snap : Snapshot) (s : MeshState)
    (hfloors : 1 ≤ snap.params.floors)
    (hslab : s.baseSlab = none ∨
      s.baseSlab = some (buildBaseSlabGeometry snap.params.segments)) :
    ∃ m, updateTowerGeometry snap s
        = .ok { ensureTowerMesh s with
                baseSlab := some (towerSlabTemplate snap s)
                mesh := some m
                meshNormals := computeVertexNormals m } ∧
      m.positions.length = snap.params.floors
        * (buildBaseSlabGeometry snap.params.segments).positions.length ∧
      m.colors.length = m.positions.length := by
  have htmpl := towerSlabTemplate_of_synced hslab
  have hne : floorSlabs snap (towerSlabTemplate snap s) ≠ [] := by
    rw [htmpl]
    unfold floorSlabs
    intro hemp
    rw [List.map_eq_nil_iff, List.range_eq_nil] at hemp
    omega
  have hmerge := mergeGeometries_eq_merged hne
    (floorSlabs_uniform snap (towerSlabTemplate snap s))
  have hlenpos : ((floorSlabs snap (towerSlabTemplate snap s)).map
      Geometry.positions).flatten.length
      = snap.params.floors
        * (buildBaseSlabGeometry snap.params.segments).positions.length := by
    rw [htmpl]
    unfold floorSlabs
    rw [List.length_flatten, List.map_map, List.map_map]
    simp only [Function.comp_def, buildFloorSlab_positions_length]
    exact sum_map_range_const _ _
  have hlencol : ((floorSlabs snap (towerSlabTemplate snap s)).map
      Geometry.colors).flatten.length
      = snap.params.floors
        * (buildBaseSlabGeometry snap.params.segments).positions.length := by
    rw [htmpl]
    unfold floorSlabs
    rw [List.length_flatten, List.map_map, List.map_map]
    simp only [Function.comp_def, buildFloorSlab_colors_length]
    exact sum_map_range_const _ _
  refine ⟨⟨((floorSlabs snap (towerSlabTemplate snap s)).map Geometry.positions).flatten,
          ((floorSlabs snap (towerSlabTemplate snap s)).map Geometry.colors).flatten,
          true,
          mergeIndices 0 (floorSlabs snap (towerSlabTemplate snap s))⟩, ?_, ?_, ?_⟩
  · unfold updateTowerGeometry
    rw [hmerge]
  · exact hlenpos
  · exact hlencol.trans hlenpos.symm

/-! ### Sample inputs used by witnesses -/

/-- A concrete parameter snapshot (the shipped slider defaults, with the
endpoint colors given directly as RGB triples). -/
def sampleParams : TowerParams :=
  ⟨48, 3, 35/100, 6, 4, -45, 240, .easeInOut, 65/100, 12/10, .easeOut,
   ⟨1, 0, 0⟩, ⟨0, 0, 1⟩, false, 15⟩

def sampleSnapshot : Snapshot := ⟨sampleParams, false, ⟨3/10, 1/10⟩, ⟨7/10, 9/10⟩⟩

/-- The module state before the first rebuild: no template, no mesh. -/
def initMeshState : MeshState := ⟨none, none, []⟩

/-- A state whose mesh has already been created (with the empty geometry
`ensureTowerMesh` installs). -/
def stateWithEmptyMesh : MeshState := ⟨none, some emptyGeometry, []⟩

def snapZeroFloors : Snapshot :=
  { sampleSnapshot with params := { sampleParams with floors := 0 } }

def snapOneFloor : Snapshot :=
  { sampleSnapshot with params := { sampleParams with floors := 1 } }

/-- C7: For every floor, the gradient evaluator produces
`lerp(colorBottom, colorTop, t)` further blended 15% toward white, and this
single color is assigned uniformly to every vertex of that floor's geometry
instance (the color buffer is a constant list covering every vertex); at
`t = 0` it is `colorBottom` blended 15% toward white and at `t = 1` it is
`colorTop` blended 15% toward white. -/
theorem floor_color_flat_gradient (snap : Snapshot) (slab : Geometry) (i : ℕ) :
    (buildFloorSlab snap slab i).colors
      = List.replicate (buildFloorSlab snap slab i).positions.length
          (colorLerp (colorLerp snap.params.colorBottom snap.params.colorTop
            (floorT snap.params.floors i)) whiteColor (15/100)) ∧
    (∀ cb ct : Color, gradientColor cb ct 0 = colorLerp cb whiteColor (15/100) ∧
        gradientColor cb ct 1 = colorLerp ct whiteColor (15/100)) := by
  constructor
  · rfl
  · intro cb ct
    cases cb
    cases ct
    constructor <;>
      (simp only [gradientColor, colorLerp, lerp, whiteColor, Color.mk.injEq]
       refine ⟨by ring, by ring, by ring⟩)

/-- C8: Rebuild is idempotent: for every parameter snapshot (including
the scale-graph state), rerunning the rebuild from the module state the
first rebuild left behind reproduces the first rebuild's outcome exactly —
in particular the vertex position, normal, color, and index buffers are
identical. -/
theorem rebuild_idempotent (snap : Snapshot) (s : MeshState) :
    updateTowerGeometry snap (updateTowerGeometry snap s).state
      = updateTowerGeometry snap s := by
  rcases s with ⟨bs, m, nrm⟩
  cases h : mergeGeometries (floorSlabs snap (towerSlabTemplate snap ⟨bs, m, nrm⟩)) with
  | threw =>
    cases bs <;> cases m <;>
      simp_all [updateTowerGeometry, ensureTowerMesh, towerSlabTemplate,
        RebuildOutcome.state]
  | nullResult =>
    cases bs <;> cases m <;>
      simp_all [updateTowerGeometry, ensureTowerMesh, towerSlabTemplate,
        RebuildOutcome.state]
  | merged merged =>
    cases bs <;> cases m <;>
      simp_all [updateTowerGeometry, ensureTowerMesh, towerSlabTemplate,
        RebuildOutcome.state]

/-- C9: For every successful rebuild (at least one floor, template in
sync with the segments parameter), the rebuild returns normally and the
merged tower mesh's vertex count equals `floorCount ·` (vertex count of one
slab template instance built with the configured segment count), and the
color attribute covers every vertex. -/
theorem tower_vertex_count (snap : Snapshot) (s : MeshState)
    (hfloors : 1 ≤ snap.params.floors)
    (hslab : s.baseSlab = none ∨
      s.baseSlab = some (buildBaseSlabGeometry snap.params.segments)) :
    ∃ m, (∃ s', updateTowerGeometry snap s = .ok s') ∧
      (updateTowerGeometry snap s).state.mesh = some m ∧
      m.positions.length = snap.params.floors
        * (buildBaseSlabGeometry snap.params.segments).positions.length ∧
      m.colors.length = m.positions.length := by
  obtain ⟨m, hm, hlen, hcol⟩ := update_mesh_count snap s hfloors hslab
  exact ⟨m, ⟨_, hm⟩, by rw [hm]; rfl, hlen, hcol⟩

/-- Witness for C9 at the shipped defaults (48 floors, 4 segments) from the
initial module state. -/
theorem tower_vertex_count_witness :
    1 ≤ sampleSnapshot.params.floors ∧
    ∃ m, (∃ s', updateTowerGeometry sampleSnapshot initMeshState = .ok s') ∧
      (updateTowerGeometry sampleSnapshot initMeshState).state.mesh = some m ∧
      m.positions.length = sampleSnapshot.params.floors
        * (buildBaseSlabGeometry sampleSnapshot.params.segments).positions.length ∧
      m.colors.length = m.positions.length :=
  ⟨by decide, tower_vertex_count sampleSnapshot initMeshState (by decide) (Or.inl rfl)⟩

/-! ### C4: empty/failed merge (corrected)

The claim (and spec 4.6) assert that a merge yielding no output makes the
rebuild return early, retaining the previous mesh.  The guard
`if (!merged) return` does exist, but it only fires when the library
returns null — an attribute-layout mismatch, which the rebuild's uniform
clones of a single template can never produce.  The one way the merge step
yields no output on the rebuild's inputs is an empty floor list, and there
the library **throws a TypeError** (`geometries[0].index` on an empty
array): the rebuild terminates exceptionally, not by the graceful return.
The current mesh geometry is still never disposed or reassigned on that
path, but only because the exception aborts the function first. -/

/-- C4 counterexample: at the concrete input where the merge step yields no
output (zero floors, a mesh previously installed), the rebuild does not
return: the merge call throws, and the rebuild ends exceptionally (it is
not a normal return for any resulting state). -/
theorem merge_no_output_throws :
    mergeGeometries (floorSlabs snapZeroFloors
      (towerSlabTemplate snapZeroFloors stateWithEmptyMesh)) = .threw ∧
    updateTowerGeometry snapZeroFloors stateWithEmptyMesh
      = .threw ⟨some (buildBaseSlabGeometry 4), some emptyGeometry, []⟩ ∧
    (∀ s', updateTowerGeometry snapZeroFloors stateWithEmptyMesh ≠ .ok s') := by
  refine ⟨rfl, rfl, ?_⟩
  intro s' hcontra
  rw [show updateTowerGeometry snapZeroFloors stateWithEmptyMesh
    = .threw ⟨some (buildBaseSlabGeometry 4), some emptyGeometry, []⟩ from rfl] at hcontra
  cases hcontra

/-- C4 amended: the rebuild never disposes or reassigns the current mesh
geometry when the merge step fails to produce one, but the graceful
early-return branch is unreachable on the rebuild's own inputs: the merge of
the floor-loop's clones never returns the library's null result (their
attribute layouts always agree), and the only failing case — an empty floor
list — makes the merge call throw, so the rebuild terminates exceptionally
with the previously built mesh geometry still in place rather than
returning. -/
theorem merge_failure_no_reassign (snap : Snapshot) (s : MeshState) (g : Geometry) :
    mergeGeometries (floorSlabs snap (towerSlabTemplate snap s))
      ≠ MergeResult.nullResult ∧
    (s.mesh = some g →
      mergeGeometries (floorSlabs snap (towerSlabTemplate snap s)) = .threw →
      updateTowerGeometry snap s
        = .threw { ensureTowerMesh s with
                   baseSlab := some (towerSlabTemplate snap s) } ∧
      (updateTowerGeometry snap s).state.mesh = some g) := by
  constructor
  · cases hl : floorSlabs snap (towerSlabTemplate snap s) with
    | nil =>
      unfold mergeGeometries
      intro hcontra
      cases hcontra
    | cons a rest =>
      have := mergeGeometries_eq_merged (l := a :: rest) (by simp)
        (by rw [← hl]; exact floorSlabs_uniform snap (towerSlabTemplate snap s))
      rw [this]
      intro hcontra
      cases hcontra
  · intro hmesh hthrew
    have hupd : updateTowerGeometry snap s
        = .threw { ensureTowerMesh s with
                   baseSlab := some (towerSlabTemplate snap s) } := by
      unfold updateTowerGeometry
      rw [hthrew]
    refine ⟨hupd, ?_⟩
    rw [hupd]
    show (ensureTowerMesh s).mesh = some g
    rcases s with ⟨bs, m, nrm⟩
    cases m with
    | none => cases hmesh
    | some g2 => simpa [ensureTowerMesh] using hmesh

/-- Witness for the amended C4 at zero floors with a previously installed
(empty) mesh geometry: the merge throws, and the exceptional exit leaves
that geometry in place. -/
theorem merge_failure_no_reassign_witness :
    stateWithEmptyMesh.mesh = some emptyGeometry ∧
    mergeGeometries (floorSlabs snapZeroFloors
      (towerSlabTemplate snapZeroFloors stateWithEmptyMesh)) = .threw ∧
    (updateTowerGeometry snapZeroFloors stateWithEmptyMesh
        = .threw { ensureTowerMesh stateWithEmptyMesh with
                   baseSlab := some (towerSlabTemplate snapZeroFloors
                     stateWithEmptyMesh) } ∧
      (updateTowerGeometry snapZeroFloors stateWithEmptyMesh).state.mesh
        = some emptyGeometry) :=
  ⟨rfl, rfl, (merge_failure_no_reassign snapZeroFloors stateWithEmptyMesh
    emptyGeometry).2 rfl rfl⟩

/-! ### C3: parameter clamping (corrected)

`buildBaseSlabGeometry` does clamp the segment count
(`Math.max(3, Math.round(params.segments))`), but `updateTowerGeometry`
contains no clamping of `params.floors`: with `floors = 0` the per-floor
loop produces no instances and the merge call throws on the empty array, so
the rebuild crashes instead of building a corrected one-floor tower. -/

/-- C3 counterexample: at `floors = 0` (all other parameters the shipped
defaults) the rebuild from the initial state throws out of the merge call —
no tower is built and the mesh geometry stays the fresh empty one — while
the same rebuild with `floors = 1` returns normally with a one-slab mesh of
28 vertices (the 4-segment template's count).  A floor count below 1 is
therefore neither clamped to 1 nor silently tolerated. -/
theorem floors_below_one_not_treated_as_one :
    updateTowerGeometry snapZeroFloors initMeshState
      = .threw ⟨some (buildBaseSlabGeometry 4), some emptyGeometry, []⟩ ∧
    (∃ s', updateTowerGeometry snapOneFloor initMeshState = .ok s') ∧
    ((updateTowerGeometry snapOneFloor initMeshState).state.mesh.map
        (fun g => g.positions.length)) = some 28 := by
  refine ⟨rfl, ?_, ?_⟩
  · obtain ⟨m, hm, _, _⟩ :=
      update_mesh_count snapOneFloor initMeshState (by decide) (Or.inl rfl)
    exact ⟨_, hm⟩
  · obtain ⟨m, hm, hlen, _⟩ :=
      update_mesh_count snapOneFloor initMeshState (by decide) (Or.inl rfl)
    rw [hm]
    have hseg : segmentCount snapOneFloor.params.segments = 4 := by
      show segmentCount (4 : ℚ) = 4
      unfold segmentCount
      rw [show (4 : ℚ) = ((4 : ℤ) : ℚ) by norm_num, round_intCast]
      rfl
    have hcount : (buildBaseSlabGeometry snapOneFloor.params.segments).positions.length
        = 28 := by
      unfold buildBaseSlabGeometry cylinderGeometry
      rw [hseg]
      simp [cylinderPositions, cylinderTorsoRow, cylinderCap]
    have hm28 : m.positions.length = 28 := by
      rw [hlen, hcount]
      rfl
    simp [RebuildOutcome.state, hm28]

/-- C3 amended: a `segmentCount` below 3 is clamped to 3 at the slab
geometry builder (triangular-prism template).  A `floorCount` below 1 is
*not* clamped to 1, and the degenerate case does not produce
silently-corrected output: the floor loop yields no instances and the merge
call throws a TypeError on the empty array, so the rebuild terminates
exceptionally — with the existing mesh geometry untouched — instead of
building a one-floor tower. -/
theorem invalid_param_clamping :
    (∀ q : ℚ, q < 3 →
      segmentCount q = 3 ∧ buildBaseSlabGeometry q = cylinderGeometry 3) ∧
    (∀ (snap : Snapshot) (s : MeshState), snap.params.floors = 0 →
      floorSlabs snap (towerSlabTemplate snap s) = [] ∧
      mergeGeometries (floorSlabs snap (towerSlabTemplate snap s)) = .threw ∧
      updateTowerGeometry snap s
        = .threw { ensureTowerMesh s with
                   baseSlab := some (towerSlabTemplate snap s) }) := by
  constructor
  · intro q hq
    have hround : round q ≤ 3 := by
      rw [round_eq]
      have hfl : (⌊q + 1/2⌋ : ℤ) < 4 := by
        rw [Int.floor_lt]
        push_cast
        linarith
      omega
    have hseg : segmentCount q = 3 := by
      unfold segmentCount
      rw [max_eq_left hround]
      rfl
    refine ⟨hseg, ?_⟩
    unfold buildBaseSlabGeometry
    rw [hseg]
  · intro snap s h0
    have hempty : floorSlabs snap (towerSlabTemplate snap s) = [] := by
      unfold floorSlabs
      rw [h0]
      rfl
    refine ⟨hempty, ?_, ?_⟩
    · rw [hempty]
      rfl
    · unfold updateTowerGeometry
      rw [hempty]
      rfl

/-- Witness for the amended C3: segments value 2 is clamped to 3, and a
zero-floor snapshot makes the rebuild end in the thrown-merge state. -/
theorem invalid_param_clamping_witness :
    ((2 : ℚ) < 3 ∧ segmentCount 2 = 3) ∧
    (snapZeroFloors.params.floors = 0 ∧
      updateTowerGeometry snapZeroFloors initMeshState
        = .threw { ensureTowerMesh initMeshState with
                   baseSlab := some (towerSlabTemplate snapZeroFloors
                     initMeshState) }) :=
  ⟨⟨by norm_num, (invalid_param_clamping.1 2 (by norm_num)).1⟩,
   ⟨rfl, (invalid_param_clamping.2 snapZeroFloors initMeshState rfl).2.2⟩⟩
